import Mathlib

/-!
Shallow embedding of the lazy sequence-transformation core of
`totallylazy.js` (`src/transducers.ts`) and proofs about it.

Modelling conventions:
* A finite iterable source is a `List`.  Driving a generator over a finite
  source is translated into a structurally recursive function on the list;
  each loop body is translated statement by statement from the source.
* JS `number` is modelled as `Int` (the counts and range bounds the claims
  exercise are integers).
* The JS `undefined` sentinel used by `LastTransducer` (`last !== undefined`)
  has no counterpart in a Lean type `A`, so semantics that test for it take a
  predicate `isUndef : A → Bool` marking which values of `A` play the role of
  `undefined`.  For element types that never contain `undefined` the predicate
  is `fun _ => false`.
* Mutable per-instance state (`TakeTransducer.count`,
  `ScanTransducer.accumilator`) is modelled by state-passing variants that
  return the field's final value next to the yielded elements.
-/

namespace Transducers

/-- `Reducer<A, B>` from transducers.ts:210-214: `call(accumilator, instance)`
plus an `identity()` seed, modelled as fields. -/
structure Reducer (A B : Type) where
  call : B → A → B
  identity : B

/-- Deep embedding of the transducer classes of transducers.ts.  Each
constructor is one concrete `Transducer` subclass and carries exactly the
constructor fields of that class; `compositeT` is `CompositeTransducer`
(fields `a`, `b`).  `scanT` keeps the source's spelling `accumilator`;
`lastT` carries the `isUndef` predicate modelling the `!== undefined` test. -/
inductive Trans : Type → Type → Type 1 where
  | identityT {A : Type} : Trans A A
  | firstT {A : Type} : Trans A A
  | lastT {A : Type} (isUndef : A → Bool) : Trans A A
  | mapT {A B : Type} (mapper : A → B) : Trans A B
  | filterT {A : Type} (predicate : A → Bool) : Trans A A
  | takeT {A : Type} (count : ℤ) : Trans A A
  | takeWhileT {A : Type} (predicate : A → Bool) : Trans A A
  | scanT {A B : Type} (reducer : Reducer A B) (accumilator : B) : Trans A B
  | compositeT {A B C : Type} (a : Trans A B) (b : Trans B C) : Trans A C

/-- `FirstTransducer.sync` (transducers.ts:102-107): yield the first element,
then return. -/
def firstSync {A : Type} : List A → List A
  | [] => []
  | a :: _ => [a]

/-- The loop `for (last of iterable);` of `LastTransducer.sync`
(transducers.ts:121-123): the variable starts `undefined` (`none`) and is
overwritten by every element. -/
def lastLoop {A : Type} (acc : Option A) : List A → Option A
  | [] => acc
  | a :: rest => lastLoop (some a) rest

/-- `LastTransducer.sync` (transducers.ts:121-125): run the loop, then
`if (last !== undefined) yield last`.  `none` is the never-assigned variable;
`isUndef a` marks an element that is itself the `undefined` sentinel. -/
def lastSync {A : Type} (isUndef : A → Bool) (l : List A) : List A :=
  match lastLoop none l with
  | none => []
  | some a => if isUndef a then [] else [a]

/-- `MapTransducer.sync` (transducers.ts:145-149). -/
def mapSync {A B : Type} (mapper : A → B) : List A → List B
  | [] => []
  | a :: rest => mapper a :: mapSync mapper rest

/-- `FilterTransducer.sync` (transducers.ts:169-173). -/
def filterSync {A : Type} (predicate : A → Bool) : List A → List A
  | [] => []
  | a :: rest =>
    if predicate a then a :: filterSync predicate rest else filterSync predicate rest

/-- The `for` loop of `TakeTransducer.sync` (transducers.ts:257-260): yield,
decrement the count, return when it hits zero, else continue. -/
def takeLoop {A : Type} (count : ℤ) : List A → List A
  | [] => []
  | a :: rest => if count - 1 = 0 then [a] else a :: takeLoop (count - 1) rest

/-- `TakeTransducer.sync` (transducers.ts:255-261): the guard
`if (this.count == 0) return;` then the loop. -/
def takeSync {A : Type} (count : ℤ) (l : List A) : List A :=
  if count = 0 then [] else takeLoop count l

/-- `TakeWhileTransducer.sync` (transducers.ts:281-286). -/
def takeWhileSync {A : Type} (predicate : A → Bool) : List A → List A
  | [] => []
  | a :: rest => if predicate a then a :: takeWhileSync predicate rest else []

/-- The loop of `ScanTransducer.sync` (transducers.ts:227-231): yield
`this.accumilator = this.reducer.call(this.accumilator, a)` per element. -/
def scanLoop {A B : Type} (call : B → A → B) (accumilator : B) : List A → List B
  | [] => []
  | a :: rest => call accumilator a :: scanLoop call (call accumilator a) rest

/-- `FirstTransducer.async_` (transducers.ts:95-100); the body is the `await`
form of the synchronous one. -/
def firstAsync {A : Type} : List A → List A
  | [] => []
  | a :: _ => [a]

/-- The loop `for await (last of iterable);` of `LastTransducer.async_`
(transducers.ts:115-117). -/
def lastLoopAsync {A : Type} (acc : Option A) : List A → Option A
  | [] => acc
  | a :: rest => lastLoopAsync (some a) rest

/-- `LastTransducer.async_` (transducers.ts:115-119). -/
def lastAsync {A : Type} (isUndef : A → Bool) (l : List A) : List A :=
  match lastLoopAsync none l with
  | none => []
  | some a => if isUndef a then [] else [a]

/-- `MapTransducer.async_` (transducers.ts:139-143). -/
def mapAsync {A B : Type} (mapper : A → B) : List A → List B
  | [] => []
  | a :: rest => mapper a :: mapAsync mapper rest

/-- `FilterTransducer.async_` (transducers.ts:163-167). -/
def filterAsync {A : Type} (predicate : A → Bool) : List A → List A
  | [] => []
  | a :: rest =>
    if predicate a then a :: filterAsync predicate rest else filterAsync predicate rest

/-- The loop of `TakeTransducer.async_` (transducers.ts:249-252). -/
def takeLoopAsync {A : Type} (count : ℤ) : List A → List A
  | [] => []
  | a :: rest => if count - 1 = 0 then [a] else a :: takeLoopAsync (count - 1) rest

/-- `TakeTransducer.async_` (transducers.ts:247-253). -/
def takeAsync {A : Type} (count : ℤ) (l : List A) : List A :=
  if count = 0 then [] else takeLoopAsync count l

/-- `TakeWhileTransducer.async_` (transducers.ts:274-279). -/
def takeWhileAsync {A : Type} (predicate : A → Bool) : List A → List A
  | [] => []
  | a :: rest => if predicate a then a :: takeWhileAsync predicate rest else []

/-- The loop of `ScanTransducer.async_` (transducers.ts:221-225). -/
def scanLoopAsync {A B : Type} (call : B → A → B) (accumilator : B) : List A → List B
  | [] => []
  | a :: rest => call accumilator a :: scanLoopAsync call (call accumilator a) rest

/-- The `sync` driving operation: one full synchronous consumption of a
finite source, dispatching to each class's `sync` body.
`IdentityTransducer.sync` (transducers.ts:80-82) returns the iterable itself;
`CompositeTransducer.sync` (transducers.ts:193-195) is `b.sync(a.sync(_))`. -/
def Trans.sync {A B : Type} : Trans A B → List A → List B
  | .identityT, l => l
  | .firstT, l => firstSync l
  | .lastT isUndef, l => lastSync isUndef l
  | .mapT mapper, l => mapSync mapper l
  | .filterT predicate, l => filterSync predicate l
  | .takeT count, l => takeSync count l
  | .takeWhileT predicate, l => takeWhileSync predicate l
  | .scanT reducer accumilator, l => scanLoop reducer.call accumilator l
  | .compositeT a b, l => b.sync (a.sync l)

/-- The `async_` driving operation over a finite asynchronous source whose
elements arrive in list order (transducers.ts:76-78, 189-191 and each class's
`async_` body). -/
def Trans.async_ {A B : Type} : Trans A B → List A → List B
  | .identityT, l => l
  | .firstT, l => firstAsync l
  | .lastT isUndef, l => lastAsync isUndef l
  | .mapT mapper, l => mapAsync mapper l
  | .filterT predicate, l => filterAsync predicate l
  | .takeT count, l => takeAsync count l
  | .takeWhileT predicate, l => takeWhileAsync predicate l
  | .scanT reducer accumilator, l => scanLoopAsync reducer.call accumilator l
  | .compositeT a b, l => b.async_ (a.async_ l)

/-- `compose(b, a)` (transducers.ts:198-200): `new CompositeTransducer(a, b)`. -/
def compose {A B C : Type} (b : Trans B C) (a : Trans A B) : Trans A C :=
  .compositeT a b

/-- `first(transducer)` (transducers.ts:110-112). -/
def first {A B : Type} (t : Trans A B) : Trans A B :=
  compose .firstT t

/-- `last(transducer)` (transducers.ts:128-130); `isUndef` parametrises the
sentinel test of the composed `LastTransducer`. -/
def last {A B : Type} (isUndef : B → Bool) (t : Trans A B) : Trans A B :=
  compose (.lastT isUndef) t

/-- `map(mapper, transducer)` (transducers.ts:152-154). -/
def map {A B C : Type} (mapper : B → C) (t : Trans A B) : Trans A C :=
  compose (.mapT mapper) t

/-- `filter(predicate, transducer)` (transducers.ts:176-178). -/
def filter {A B : Type} (predicate : B → Bool) (t : Trans A B) : Trans A B :=
  compose (.filterT predicate) t

/-- `find(predicate, transducer)` (transducers.ts:180-182):
`first(filter(predicate, transducer))`. -/
def find {A B : Type} (predicate : B → Bool) (t : Trans A B) : Trans A B :=
  first (filter predicate t)

/-- `scan(reducer, transducer)` (transducers.ts:234-236): the new
`ScanTransducer`'s accumulator defaults to `reducer.identity()`
(transducers.ts:217). -/
def scan {A B C : Type} (reducer : Reducer B C) (t : Trans A B) : Trans A C :=
  compose (.scanT reducer reducer.identity) t

/-- `reduce(reducer, transducer)` (transducers.ts:238-240):
`last(scan(reducer, transducer))`. -/
def reduce {A B C : Type} (isUndef : C → Bool) (reducer : Reducer B C)
    (t : Trans A B) : Trans A C :=
  last isUndef (scan reducer t)

/-- `take(count, transducer)` (transducers.ts:264-266). -/
def take {A B : Type} (count : ℤ) (t : Trans A B) : Trans A B :=
  compose (.takeT count) t

/-- `takeWhile(predicate, transducer)` (transducers.ts:289-291). -/
def takeWhile {A B : Type} (predicate : B → Bool) (t : Trans A B) : Trans A B :=
  compose (.takeWhileT predicate) t

/-- The `Sum` reducer (transducers.ts:293-303): `call(a, b) = a + b`,
`identity() = 0`. -/
def sum : Reducer ℤ ℤ :=
  ⟨fun a b => a + b, 0⟩

/-- The `Sequence` facade (transducers.ts:366-415): a source paired with a
transducer stack (default `identity()`). -/
structure Sequence (ι A : Type) : Type 1 where
  iterable : List ι
  transducer : Trans ι A

/-- One full synchronous consumption of the facade, as done by
`[Symbol.iterator]` (transducers.ts:376-378) drained by `syncArray`
(transducers.ts:315-317): drive `this.transducer.sync(this.iterable)`. -/
def Sequence.toList {ι A : Type} (s : Sequence ι A) : List A :=
  s.transducer.sync s.iterable

/-- `Sequence.map` (transducers.ts:380-382). -/
def Sequence.map {ι A B : Type} (s : Sequence ι A) (mapper : A → B) : Sequence ι B :=
  ⟨s.iterable, Transducers.map mapper s.transducer⟩

/-- `Sequence.filter` (transducers.ts:384-386). -/
def Sequence.filter {ι A : Type} (s : Sequence ι A) (predicate : A → Bool) : Sequence ι A :=
  ⟨s.iterable, Transducers.filter predicate s.transducer⟩

/-- `Sequence.find` (transducers.ts:388-390). -/
def Sequence.find {ι A : Type} (s : Sequence ι A) (predicate : A → Bool) : Sequence ι A :=
  ⟨s.iterable, Transducers.find predicate s.transducer⟩

/-- `Sequence.first` (transducers.ts:392-394). -/
def Sequence.first {ι A : Type} (s : Sequence ι A) : Sequence ι A :=
  ⟨s.iterable, Transducers.first s.transducer⟩

/-- `Sequence.last` (transducers.ts:396-398).  The source body is
`sequence(this.iterable, this.transducer.first())`: it composes a
`FirstTransducer`, not a `LastTransducer`. -/
def Sequence.last {ι A : Type} (s : Sequence ι A) : Sequence ι A :=
  ⟨s.iterable, Transducers.first s.transducer⟩

/-- `Sequence.take` (transducers.ts:400-402). -/
def Sequence.take {ι A : Type} (s : Sequence ι A) (count : ℤ) : Sequence ι A :=
  ⟨s.iterable, Transducers.take count s.transducer⟩

/-- `Sequence.takeWhile` (transducers.ts:404-406). -/
def Sequence.takeWhile {ι A : Type} (s : Sequence ι A) (predicate : A → Bool) : Sequence ι A :=
  ⟨s.iterable, Transducers.takeWhile predicate s.transducer⟩

/-- `Sequence.scan` (transducers.ts:408-410). -/
def Sequence.scan {ι A B : Type} (s : Sequence ι A) (reducer : Reducer A B) : Sequence ι B :=
  ⟨s.iterable, Transducers.scan reducer s.transducer⟩

/-- `Sequence.reduce` (transducers.ts:412-414). -/
def Sequence.reduce {ι A B : Type} (s : Sequence ι A) (isUndef : B → Bool)
    (reducer : Reducer A B) : Sequence ι B :=
  ⟨s.iterable, Transducers.reduce isUndef reducer s.transducer⟩

/-- The `AsyncSequence` facade (transducers.ts:417-466). -/
structure AsyncSequence (ι A : Type) : Type 1 where
  iterable : List ι
  transducer : Trans ι A

/-- One full asynchronous consumption drained by `asyncArray`
(transducers.ts:309-313) through `[Symbol.asyncIterator]`
(transducers.ts:427-429): drive `this.transducer.async_(this.iterable)`. -/
def AsyncSequence.toList {ι A : Type} (s : AsyncSequence ι A) : List A :=
  s.transducer.async_ s.iterable

/-- `AsyncSequence.map` (transducers.ts:431-433). -/
def AsyncSequence.map {ι A B : Type} (s : AsyncSequence ι A) (mapper : A → B) :
    AsyncSequence ι B :=
  ⟨s.iterable, Transducers.map mapper s.transducer⟩

/-- `AsyncSequence.filter` (transducers.ts:435-437). -/
def AsyncSequence.filter {ι A : Type} (s : AsyncSequence ι A) (predicate : A → Bool) :
    AsyncSequence ι A :=
  ⟨s.iterable, Transducers.filter predicate s.transducer⟩

/-- `AsyncSequence.find` (transducers.ts:439-441). -/
def AsyncSequence.find {ι A : Type} (s : AsyncSequence ι A) (predicate : A → Bool) :
    AsyncSequence ι A :=
  ⟨s.iterable, Transducers.find predicate s.transducer⟩

/-- `AsyncSequence.first` (transducers.ts:443-445). -/
def AsyncSequence.first {ι A : Type} (s : AsyncSequence ι A) : AsyncSequence ι A :=
  ⟨s.iterable, Transducers.first s.transducer⟩

/-- `AsyncSequence.last` (transducers.ts:447-449): unlike its synchronous
twin this one really composes a `LastTransducer` via
`this.transducer.last()`. -/
def AsyncSequence.last {ι A : Type} (s : AsyncSequence ι A) (isUndef : A → Bool) :
    AsyncSequence ι A :=
  ⟨s.iterable, Transducers.last isUndef s.transducer⟩

/-- `AsyncSequence.take` (transducers.ts:451-453). -/
def AsyncSequence.take {ι A : Type} (s : AsyncSequence ι A) (count : ℤ) : AsyncSequence ι A :=
  ⟨s.iterable, Transducers.take count s.transducer⟩

/-- `AsyncSequence.takeWhile` (transducers.ts:455-457). -/
def AsyncSequence.takeWhile {ι A : Type} (s : AsyncSequence ι A) (predicate : A → Bool) :
    AsyncSequence ι A :=
  ⟨s.iterable, Transducers.takeWhile predicate s.transducer⟩

/-- `AsyncSequence.scan` (transducers.ts:459-461). -/
def AsyncSequence.scan {ι A B : Type} (s : AsyncSequence ι A) (reducer : Reducer A B) :
    AsyncSequence ι B :=
  ⟨s.iterable, Transducers.scan reducer s.transducer⟩

/-- `AsyncSequence.reduce` (transducers.ts:463-465). -/
def AsyncSequence.reduce {ι A B : Type} (s : AsyncSequence ι A) (isUndef : B → Bool)
    (reducer : Reducer A B) : AsyncSequence ι B :=
  ⟨s.iterable, Transducers.reduce isUndef reducer s.transducer⟩

/-- State-passing version of the `TakeTransducer.sync` loop
(transducers.ts:257-260): next to the yielded elements it returns the final
value of the mutable field `this.count`, which survives into any later
consumption of the same instance. -/
def takeLoopSt {A : Type} (count : ℤ) : List A → List A × ℤ
  | [] => ([], count)
  | a :: rest =>
    if count - 1 = 0 then ([a], count - 1)
    else
      let r := takeLoopSt (count - 1) rest
      (a :: r.1, r.2)

/-- State-passing `TakeTransducer.sync` (transducers.ts:255-261): guard on
`this.count == 0`, then the loop; returns (yielded elements, final count). -/
def takeSyncSt {A : Type} (count : ℤ) (l : List A) : List A × ℤ :=
  if count = 0 then ([], count) else takeLoopSt count l

/-- Pull-instrumented `TakeTransducer.sync` loop: second component counts the
calls the `for..of` loop makes on the upstream iterator (one per iteration,
plus the one that observes exhaustion; the early `return` after the count
hits zero makes no further call). -/
def takeLoopPulls {A : Type} (count : ℤ) : List A → List A × ℕ
  | [] => ([], 1)
  | a :: rest =>
    if count - 1 = 0 then ([a], 1)
    else
      let r := takeLoopPulls (count - 1) rest
      (a :: r.1, r.2 + 1)

/-- Pull-instrumented `TakeTransducer.sync` (transducers.ts:255-261): with
`count == 0` the guard returns before the loop ever touches the upstream
iterator, so zero pulls happen. -/
def takeSyncPulls {A : Type} (count : ℤ) (l : List A) : List A × ℕ :=
  if count = 0 then ([], 0) else takeLoopPulls count l

/-- State-passing version of the `ScanTransducer.sync` loop
(transducers.ts:227-231): also returns the final value of the mutable field
`this.accumilator`, which is seeded once at construction
(transducers.ts:217) and carries over into any later consumption. -/
def scanLoopSt {A B : Type} (call : B → A → B) (accumilator : B) :
    List A → List B × B
  | [] => ([], accumilator)
  | a :: rest =>
    let r := scanLoopSt call (call accumilator a) rest
    (call accumilator a :: r.1, r.2)

/-- `increment` (transducers.ts:337-339). -/
def increment (a : ℤ) : ℤ :=
  a + 1

/-- The ascending branch of `range` (transducers.ts:361):
`iterate(add(absoluteStep), start).takeWhile(n => n <= end)` — the generator
loop is translated into recursion; `hstep` records that the absolute step of
a nonzero step is positive, which is what makes the loop terminate. -/
def rangeUp (step : ℤ) (hstep : 0 < step) (start stop : ℤ) : List ℤ :=
  if _h : start ≤ stop then start :: rangeUp step hstep (start + step) stop else []
termination_by (stop + 1 - start).toNat
decreasing_by omega

/-- The descending branch of `range` (transducers.ts:360):
`iterate(subtract(absoluteStep), start).takeWhile(n => n >= end)`, where
`subtract(a)` is `b => b - a` (transducers.ts:351). -/
def rangeDown (step : ℤ) (hstep : 0 < step) (start stop : ℤ) : List ℤ :=
  if _h : stop ≤ start then start :: rangeDown step hstep (start - step) stop else []
termination_by (start + 1 - stop).toNat
decreasing_by omega

/-- `range(start, end, step)` with `end` supplied (transducers.ts:355-364):
`absoluteStep = Math.abs(step)`; descending when `end < start`, ascending
otherwise.  The claims only exercise a supplied `end` and nonzero `step`,
so the unbounded branch (`end === undefined`) is not modelled. -/
def range (start stop step : ℤ) (h : step ≠ 0) : List ℤ :=
  if stop < start then rangeDown |step| (abs_pos.mpr h) start stop
  else rangeUp |step| (abs_pos.mpr h) start stop

/-- A JS value as the `sequence` factory sees it: what sits in its
`Symbol.iterator` and `Symbol.asyncIterator` slots (`none` models the slot
being `undefined`; `some elems` models a present protocol producing the
listed elements). -/
structure JsSource (A : Type) where
  syncIter : Option (List A)
  asyncIter : Option (List A)

/-- `isIterable` (transducers.ts:489-491): `instance[Symbol.iterator] !==
undefined`. -/
def isIterable {A : Type} (v : JsSource A) : Bool :=
  v.syncIter.isSome

/-- `isAsyncIterable` (transducers.ts:493-495): `instance[Symbol.asyncIterator]
!== undefined`. -/
def isAsyncIterable {A : Type} (v : JsSource A) : Bool :=
  v.asyncIter.isSome

/-- The facade the factory returns: `Sequence.of` over the synchronous
protocol's elements, or `AsyncSequence.of` over the asynchronous protocol's
elements (transducers.ts:481-482). -/
inductive Facade (A : Type) : Type where
  | syncSeq (elems : List A)
  | asyncSeq (elems : List A)
deriving DecidableEq

/-- The argument of `sequence` (transducers.ts:470): an iterable value or a
zero-argument generator function producing one. -/
inductive SourceArg (A : Type) : Type 1 where
  | val (v : JsSource A)
  | fn (f : Unit → JsSource A)

/-- The probing chain of `sequence` (transducers.ts:480-487): `isIterable`
is tested first and wins; then `isAsyncIterable`; when neither holds the
function falls through all returns, i.e. it returns `undefined` (`none`).
There is no `throw` anywhere in the function. -/
def sequenceVal {A : Type} (v : JsSource A) : Option (Facade A) :=
  if isIterable v then some (.syncSeq (v.syncIter.getD []))
  else if isAsyncIterable v then some (.asyncSeq (v.asyncIter.getD []))
  else none

/-- The `sequence` factory (transducers.ts:478-487): a function argument is
invoked first (`if (typeof iterable == 'function') iterable = iterable()`),
then the resulting value is probed. -/
def sequence {A : Type} : SourceArg A → Option (Facade A)
  | .fn f => sequenceVal (f ())
  | .val v => sequenceVal v

/-! Helper lemmas shared by the claim theorems. -/

lemma takeLoopPulls_fst {A : Type} (c : ℤ) (l : List A) :
    (takeLoopPulls c l).1 = takeLoop c l := by
  induction l generalizing c with
  | nil => rfl
  | cons a rest ih =>
    simp only [takeLoopPulls, takeLoop]
    split
    · rfl
    · simp [ih]

lemma takeLoopSt_fst {A : Type} (c : ℤ) (l : List A) :
    (takeLoopSt c l).1 = takeLoop c l := by
  induction l generalizing c with
  | nil => rfl
  | cons a rest ih =>
    simp only [takeLoopSt, takeLoop]
    split
    · rfl
    · simp [ih]

lemma takeLoopSt_snd {A : Type} (l : List A) :
    ∀ c : ℤ, 0 < c → c ≤ (l.length : ℤ) → (takeLoopSt c l).2 = 0 := by
  induction l with
  | nil =>
    intro c hpos hle
    simp at hle
    omega
  | cons a rest ih =>
    intro c hpos hle
    simp only [takeLoopSt]
    split
    · omega
    · have : (takeLoopSt (c - 1) rest).2 = 0 := by
        apply ih
        · omega
        · simp at hle ⊢
          omega
      simpa using this

lemma takeLoop_neg {A : Type} (l : List A) :
    ∀ c : ℤ, c < 0 → takeLoop c l = l := by
  induction l with
  | nil => intro c _; rfl
  | cons a rest ih =>
    intro c hc
    simp only [takeLoop]
    rw [if_neg (by omega), ih (c - 1) (by omega)]

lemma scanLoopSt_fst {A B : Type} (call : B → A → B) (l : List A) :
    ∀ acc : B, (scanLoopSt call acc l).1 = scanLoop call acc l := by
  induction l with
  | nil => intro acc; rfl
  | cons a rest ih => intro acc; simp [scanLoopSt, scanLoop, ih]

lemma scanLoopSt_snd {A B : Type} (call : B → A → B) (l : List A) :
    ∀ acc : B, (scanLoopSt call acc l).2 = List.foldl call acc l := by
  induction l with
  | nil => intro acc; rfl
  | cons a rest ih => intro acc; simp [scanLoopSt, List.foldl, ih]

lemma lastLoop_scanLoop {A B : Type} (call : B → A → B) (l : List A) :
    ∀ (acc : B) (o : Option B), l ≠ [] →
      lastLoop o (scanLoop call acc l) = some (List.foldl call acc l) := by
  induction l with
  | nil => intro acc o h; exact absurd rfl h
  | cons a rest ih =>
    intro acc o _
    cases rest with
    | nil => simp [scanLoop, lastLoop]
    | cons b rest2 =>
      have h2 := ih (call acc a) (some (call acc a)) (by simp)
      simp only [scanLoop, lastLoop] at h2 ⊢
      rw [h2]
      simp

lemma firstAsync_eq_firstSync {A : Type} (l : List A) : firstAsync l = firstSync l := by
  cases l <;> rfl

lemma lastLoopAsync_eq_lastLoop {A : Type} (l : List A) :
    ∀ o : Option A, lastLoopAsync o l = lastLoop o l := by
  induction l with
  | nil => intro o; rfl
  | cons a rest ih => intro o; simp [lastLoopAsync, lastLoop, ih]

lemma lastAsync_eq_lastSync {A : Type} (u : A → Bool) (l : List A) :
    lastAsync u l = lastSync u l := by
  simp [lastAsync, lastSync, lastLoopAsync_eq_lastLoop]

lemma mapAsync_eq_mapSync {A B : Type} (f : A → B) (l : List A) :
    mapAsync f l = mapSync f l := by
  induction l with
  | nil => rfl
  | cons a rest ih => simp [mapAsync, mapSync, ih]

lemma filterAsync_eq_filterSync {A : Type} (p : A → Bool) (l : List A) :
    filterAsync p l = filterSync p l := by
  induction l with
  | nil => rfl
  | cons a rest ih =>
    simp only [filterAsync, filterSync]
    split <;> simp [ih]

lemma takeLoopAsync_eq_takeLoop {A : Type} (l : List A) :
    ∀ c : ℤ, takeLoopAsync c l = takeLoop c l := by
  induction l with
  | nil => intro c; rfl
  | cons a rest ih =>
    intro c
    simp only [takeLoopAsync, takeLoop]
    split <;> simp [ih]

lemma takeAsync_eq_takeSync {A : Type} (c : ℤ) (l : List A) :
    takeAsync c l = takeSync c l := by
  simp [takeAsync, takeSync, takeLoopAsync_eq_takeLoop]

lemma takeWhileAsync_eq_takeWhileSync {A : Type} (p : A → Bool) (l : List A) :
    takeWhileAsync p l = takeWhileSync p l := by
  induction l with
  | nil => rfl
  | cons a rest ih =>
    simp only [takeWhileAsync, takeWhileSync]
    split <;> simp [ih]

lemma scanLoopAsync_eq_scanLoop {A B : Type} (call : B → A → B) (l : List A) :
    ∀ acc : B, scanLoopAsync call acc l = scanLoop call acc l := by
  induction l with
  | nil => intro acc; rfl
  | cons a rest ih => intro acc; simp [scanLoopAsync, scanLoop, ih]

/-- At the transducer layer the two driving operations of every stack agree
on every finite source: the divergence exhibited by the `c2` theorem lives
purely in the `Sequence.last` facade method. -/
lemma Trans.async_eq_sync {A B : Type} (t : Trans A B) : ∀ l : List A, t.async_ l = t.sync l := by
  induction t with
  | identityT => intro l; rfl
  | firstT => intro l; exact firstAsync_eq_firstSync l
  | lastT u => intro l; exact lastAsync_eq_lastSync u l
  | mapT f => intro l; exact mapAsync_eq_mapSync f l
  | filterT p => intro l; exact filterAsync_eq_filterSync p l
  | takeT c => intro l; exact takeAsync_eq_takeSync c l
  | takeWhileT p => intro l; exact takeWhileAsync_eq_takeWhileSync p l
  | scanT r acc => intro l; exact scanLoopAsync_eq_scanLoop r.call l acc
  | compositeT a b iha ihb => intro l; simp [Trans.async_, Trans.sync, iha, ihb]

/-- C1: the claim says `Sequence.last()` composes the Last transducer and,
on the non-empty source `[1, 2]`, yields the final element `[2]`.  The code
(transducers.ts:397) composes `this.transducer.first()` instead, so the
facade yields `[1]`; the third conjunct shows what the `LastTransducer`
the claim names would have yielded. -/
theorem c1_sequence_last_bug :
    (Sequence.last ⟨[(1 : ℤ), 2], .identityT⟩).transducer = compose .firstT .identityT
    ∧ (Sequence.last ⟨[(1 : ℤ), 2], .identityT⟩).toList = [1]
    ∧ lastSync (fun _ => false) [(1 : ℤ), 2] = [2] :=
  ⟨rfl, rfl, rfl⟩

/-- C2: the claim says every pipeline yields the same elements through the
synchronous and the asynchronous facade.  The pipeline `.last()` over the
source `[1, 2]` falsifies it: the synchronous facade yields `[1]` (because
`Sequence.last` composes a First transducer, transducers.ts:397) while the
asynchronous facade yields `[2]`. -/
theorem c2_sync_async_diverge_on_last :
    (Sequence.last ⟨[(1 : ℤ), 2], .identityT⟩).toList = [1]
    ∧ (AsyncSequence.last ⟨[(1 : ℤ), 2], .identityT⟩ (fun _ => false)).toList = [2] :=
  ⟨rfl, rfl⟩

/-- C3: `take(0)` yields the empty sequence against every facade, and the
`TakeTransducer` performs zero pulls on its upstream iterator when its count
is `0` (the guard `if (this.count == 0) return;` fires before the loop).
The third conjunct checks the pull-instrumented semantics against the plain
one at every count. -/
theorem c3_take_zero :
    (∀ (ι A : Type) (s : Sequence ι A), (s.take 0).toList = [])
    ∧ (∀ (A : Type) (l : List A), takeSyncPulls 0 l = ([], 0))
    ∧ (∀ (A : Type) (c : ℤ) (l : List A), (takeSyncPulls c l).1 = takeSync c l) := by
  refine ⟨?_, ?_, ?_⟩
  · intro ι A s
    simp [Sequence.take, Sequence.toList, take, compose, Trans.sync, takeSync]
  · intro A l
    simp [takeSyncPulls]
  · intro A c l
    simp only [takeSyncPulls, takeSync]
    split
    · rfl
    · exact takeLoopPulls_fst c l

/-- C4: with a positive count `n` and a first consumption of length at least
`n`, the mutable count of a `TakeTransducer` ends at `0`, so any further
consumption of the same instance yields nothing; a `ScanTransducer`'s
accumulator ends at the fold of the first consumption and seeds any further
consumption (instead of being re-seeded from the reducer identity), as the
concrete sum re-run `[7, 9, 12] ≠ [1, 3, 6]` exhibits. -/
theorem c4_single_use :
    (∀ (A : Type) (n : ℤ) (l l2 : List A), 0 < n → n ≤ (l.length : ℤ) →
        (takeSyncSt n l).2 = 0 ∧ (takeSyncSt (takeSyncSt n l).2 l2).1 = [])
    ∧ (∀ (A B : Type) (call : B → A → B) (acc : B) (l l2 : List A),
        (scanLoopSt call acc l).2 = List.foldl call acc l
        ∧ (scanLoopSt call (scanLoopSt call acc l).2 l2).1 =
            scanLoop call (List.foldl call acc l) l2)
    ∧ (scanLoopSt (fun a b => a + b)
        (scanLoopSt (fun a b => a + b) (0 : ℤ) [1, 2, 3]).2 [1, 2, 3]).1 = [7, 9, 12] := by
  refine ⟨?_, ?_, by decide⟩
  · intro A n l l2 hpos hlen
    have hsnd : (takeSyncSt n l).2 = 0 := by
      simp only [takeSyncSt]
      rw [if_neg (by omega)]
      exact takeLoopSt_snd l n hpos hlen
    refine ⟨hsnd, ?_⟩
    rw [hsnd]
    simp [takeSyncSt]
  · intro A B call acc l l2
    refine ⟨scanLoopSt_snd call l acc, ?_⟩
    rw [scanLoopSt_snd call l acc, scanLoopSt_fst]

/-- C4 witness: count 2 against the source `[10, 20, 30]` of length 3 leaves
the count at `0` and a second consumption over `[1, 2]` yields nothing. -/
theorem c4_witness :
    ((0 : ℤ) < 2 ∧ (2 : ℤ) ≤ (([(10 : ℤ), 20, 30] : List ℤ).length : ℤ))
    ∧ ((takeSyncSt 2 [(10 : ℤ), 20, 30]).2 = 0
        ∧ (takeSyncSt (takeSyncSt 2 [(10 : ℤ), 20, 30]).2 [(1 : ℤ), 2]).1 = []) :=
  ⟨⟨by decide, by decide⟩, c4_single_use.1 ℤ 2 [10, 20, 30] [1, 2] (by decide) (by decide)⟩

/-- C9: every chaining operation of both facades returns a new facade whose
source is the original's source and whose transducer stack is the original
stack with one descriptor composed on top; nothing is consumed because the
methods only build these descriptors (they are pure constructors of the
model, exactly as the source methods only call `sequence(this.iterable, …)`
with a freshly composed transducer). -/
theorem c9_chaining_allocates_only :
    (∀ (ι A B : Type) (s : Sequence ι A) (f : A → B) (p : A → Bool) (c : ℤ)
        (r : Reducer A B) (u : B → Bool),
      ((s.map f).iterable = s.iterable ∧ (s.map f).transducer = map f s.transducer)
      ∧ ((s.filter p).iterable = s.iterable
          ∧ (s.filter p).transducer = filter p s.transducer)
      ∧ ((s.find p).iterable = s.iterable ∧ (s.find p).transducer = find p s.transducer)
      ∧ (s.first.iterable = s.iterable ∧ s.first.transducer = first s.transducer)
      ∧ (s.last.iterable = s.iterable ∧ s.last.transducer = first s.transducer)
      ∧ ((s.take c).iterable = s.iterable ∧ (s.take c).transducer = take c s.transducer)
      ∧ ((s.takeWhile p).iterable = s.iterable
          ∧ (s.takeWhile p).transducer = takeWhile p s.transducer)
      ∧ ((s.scan r).iterable = s.iterable ∧ (s.scan r).transducer = scan r s.transducer)
      ∧ ((s.reduce u r).iterable = s.iterable
          ∧ (s.reduce u r).transducer = reduce u r s.transducer))
    ∧ (∀ (ι A B : Type) (t : AsyncSequence ι A) (f : A → B) (p : A → Bool) (c : ℤ)
        (r : Reducer A B) (u : B → Bool) (ua : A → Bool),
      ((t.map f).iterable = t.iterable ∧ (t.map f).transducer = map f t.transducer)
      ∧ ((t.filter p).iterable = t.iterable
          ∧ (t.filter p).transducer = filter p t.transducer)
      ∧ ((t.find p).iterable = t.iterable ∧ (t.find p).transducer = find p t.transducer)
      ∧ (t.first.iterable = t.iterable ∧ t.first.transducer = first t.transducer)
      ∧ ((t.last ua).iterable = t.iterable ∧ (t.last ua).transducer = last ua t.transducer)
      ∧ ((t.take c).iterable = t.iterable ∧ (t.take c).transducer = take c t.transducer)
      ∧ ((t.takeWhile p).iterable = t.iterable
          ∧ (t.takeWhile p).transducer = takeWhile p t.transducer)
      ∧ ((t.scan r).iterable = t.iterable ∧ (t.scan r).transducer = scan r t.transducer)
      ∧ ((t.reduce u r).iterable = t.iterable
          ∧ (t.reduce u r).transducer = reduce u r t.transducer)) := by
  constructor
  · intro ι A B s f p c r u
    exact ⟨⟨rfl, rfl⟩, ⟨rfl, rfl⟩, ⟨rfl, rfl⟩, ⟨rfl, rfl⟩, ⟨rfl, rfl⟩, ⟨rfl, rfl⟩,
      ⟨rfl, rfl⟩, ⟨rfl, rfl⟩, ⟨rfl, rfl⟩⟩
  · intro ι A B t f p c r u ua
    exact ⟨⟨rfl, rfl⟩, ⟨rfl, rfl⟩, ⟨rfl, rfl⟩, ⟨rfl, rfl⟩, ⟨rfl, rfl⟩, ⟨rfl, rfl⟩,
      ⟨rfl, rfl⟩, ⟨rfl, rfl⟩, ⟨rfl, rfl⟩⟩

/-- C10: a negative count never truncates: the loop of `TakeTransducer.sync`
stops only when the decremented count is exactly `0`, and a negative count
decremented stays negative, so every element of the source is yielded. -/
theorem c10_take_negative :
    ∀ (ι A : Type) (s : Sequence ι A) (c : ℤ) (l : List A), c < 0 →
      (s.take c).toList = s.toList ∧ takeSync c l = l := by
  intro ι A s c l hc
  have hall : ∀ l2 : List A, takeSync c l2 = l2 := by
    intro l2
    simp only [takeSync]
    rw [if_neg (by omega)]
    exact takeLoop_neg l2 c hc
  constructor
  · simp [Sequence.take, Sequence.toList, take, compose, Trans.sync, hall]
  · exact hall l

/-- C5: `reduce(r)` is literally `last(scan(r, …))`; over any finite input it
yields the singleton of the fold of `r.call` seeded from `r.identity`, except
that it yields nothing on empty input or when the folded value is the
`undefined` sentinel; the summation reducer over `[1, 2, 3, 4]` yields
`[10]` through the `Sequence.reduce` facade. -/
theorem c5_reduce_is_last_scan :
    (∀ (A B C : Type) (u : C → Bool) (r : Reducer B C) (t : Trans A B),
        reduce u r t = last u (scan r t))
    ∧ (∀ (A B : Type) (u : B → Bool) (r : Reducer A B) (l : List A),
        Trans.sync (reduce u r .identityT) l =
          if l.isEmpty then []
          else if u (List.foldl r.call r.identity l) then []
          else [List.foldl r.call r.identity l])
    ∧ (Sequence.reduce ⟨[(1 : ℤ), 2, 3, 4], .identityT⟩ (fun _ => false) sum).toList
        = [10] := by
  refine ⟨fun A B C u r t => rfl, ?_, by decide⟩
  intro A B u r l
  cases l with
  | nil => rfl
  | cons a rest =>
    simp only [reduce, last, scan, compose, Trans.sync, lastSync]
    rw [lastLoop_scanLoop r.call (a :: rest) r.identity none (by simp)]
    simp

lemma rangeUp_cons (step : ℤ) (hstep : 0 < step) (start stop : ℤ) (h : start ≤ stop) :
    rangeUp step hstep start stop = start :: rangeUp step hstep (start + step) stop := by
  rw [rangeUp]
  exact dif_pos h

lemma rangeUp_nil (step : ℤ) (hstep : 0 < step) (start stop : ℤ) (h : ¬start ≤ stop) :
    rangeUp step hstep start stop = [] := by
  rw [rangeUp]
  exact dif_neg h

lemma rangeDown_cons (step : ℤ) (hstep : 0 < step) (start stop : ℤ) (h : stop ≤ start) :
    rangeDown step hstep start stop = start :: rangeDown step hstep (start - step) stop := by
  rw [rangeDown]
  exact dif_pos h

lemma rangeDown_nil (step : ℤ) (hstep : 0 < step) (start stop : ℤ) (h : ¬stop ≤ start) :
    rangeDown step hstep start stop = [] := by
  rw [rangeDown]
  exact dif_neg h

/-- C6: the four concrete `range` evaluations of the claim, plus the general
fact that the sign of `step` is ignored (only `Math.abs(step)` is used, the
direction coming from comparing `end` with `start`). -/
theorem c6_range :
    range 1 5 1 (by decide) = [1, 2, 3, 4, 5]
    ∧ range 5 1 1 (by decide) = [5, 4, 3, 2, 1]
    ∧ range 0 10 3 (by decide) = [0, 3, 6, 9]
    ∧ range 10 0 (-3) (by decide) = [10, 7, 4, 1]
    ∧ (∀ (start stop step : ℤ) (h : step ≠ 0),
        range start stop step h = range start stop (-step) (neg_ne_zero.mpr h)) := by
  refine ⟨?_, ?_, ?_, ?_, ?_⟩
  · unfold range
    rw [if_neg (by decide)]
    show rangeUp 1 (by decide) 1 5 = [1, 2, 3, 4, 5]
    rw [rangeUp_cons _ _ _ _ (by decide), rangeUp_cons _ _ _ _ (by decide),
      rangeUp_cons _ _ _ _ (by decide), rangeUp_cons _ _ _ _ (by decide),
      rangeUp_cons _ _ _ _ (by decide), rangeUp_nil _ _ _ _ (by decide)]
    decide
  · unfold range
    rw [if_pos (by decide)]
    show rangeDown 1 (by decide) 5 1 = [5, 4, 3, 2, 1]
    rw [rangeDown_cons _ _ _ _ (by decide), rangeDown_cons _ _ _ _ (by decide),
      rangeDown_cons _ _ _ _ (by decide), rangeDown_cons _ _ _ _ (by decide),
      rangeDown_cons _ _ _ _ (by decide), rangeDown_nil _ _ _ _ (by decide)]
    decide
  · unfold range
    rw [if_neg (by decide)]
    show rangeUp 3 (by decide) 0 10 = [0, 3, 6, 9]
    rw [rangeUp_cons _ _ _ _ (by decide), rangeUp_cons _ _ _ _ (by decide),
      rangeUp_cons _ _ _ _ (by decide), rangeUp_cons _ _ _ _ (by decide),
      rangeUp_nil _ _ _ _ (by decide)]
    decide
  · unfold range
    rw [if_pos (by decide)]
    show rangeDown 3 (by decide) 10 0 = [10, 7, 4, 1]
    rw [rangeDown_cons _ _ _ _ (by decide), rangeDown_cons _ _ _ _ (by decide),
      rangeDown_cons _ _ _ _ (by decide), rangeDown_cons _ _ _ _ (by decide),
      rangeDown_nil _ _ _ _ (by decide)]
    decide
  · intro start stop step h
    simp only [range, abs_neg]

/-- C6 witness: the sign-invariance part of the theorem applied at
`range(10, 0, 3)` versus `range(10, 0, -3)`. -/
theorem c6_witness :
    ((3 : ℤ) ≠ 0)
    ∧ range 10 0 3 (by decide) = range 10 0 (-3) (by decide) :=
  ⟨by decide, c6_range.2.2.2.2 10 0 3 (by decide)⟩

/-- C7 counterexample: the claim says a value exposing both iteration
protocols gets an `AsyncSequence`.  The probing chain of `sequence`
(transducers.ts:481-482) tests `isIterable` first, so a value exposing both
protocols gets a `Sequence` (the synchronous facade), not an
`AsyncSequence`. -/
theorem c7_counterexample :
    sequence (.val (⟨some [(1 : ℤ)], some [1]⟩ : JsSource ℤ)) = some (.syncSeq [1])
    ∧ sequence (.val (⟨some [(1 : ℤ)], some [1]⟩ : JsSource ℤ)) ≠ some (.asyncSeq [1]) := by
  exact ⟨rfl, by decide⟩

/-- C7 amended: `sequence()` probes the synchronous capability first, so a
value exposing both protocols gets a `Sequence`; a value exposing exactly one
protocol gets the matching facade; a generator function is invoked first and
its result probed. -/
theorem c7_amended :
    (∀ (A : Type) (v : JsSource A), isIterable v = true →
        sequence (.val v) = some (.syncSeq (v.syncIter.getD [])))
    ∧ (∀ (A : Type) (v : JsSource A), isIterable v = false → isAsyncIterable v = true →
        sequence (.val v) = some (.asyncSeq (v.asyncIter.getD [])))
    ∧ (∀ (A : Type) (f : Unit → JsSource A), sequence (.fn f) = sequence (.val (f ()))) := by
  refine ⟨?_, ?_, fun A f => rfl⟩
  · intro A v h
    simp [sequence, sequenceVal, h]
  · intro A v h1 h2
    simp [sequence, sequenceVal, h1, h2]

/-- C7 amended witness: a value exposing both protocols satisfies the first
branch and gets the synchronous facade. -/
theorem c7_amended_witness :
    isIterable (⟨some [(1 : ℤ)], some [1]⟩ : JsSource ℤ) = true
    ∧ sequence (.val (⟨some [(1 : ℤ)], some [1]⟩ : JsSource ℤ)) = some (.syncSeq [1]) :=
  ⟨by decide, c7_amended.1 ℤ ⟨some [1], some [1]⟩ (by decide)⟩

/-- C8 counterexample: the claim says a value with neither capability makes
`sequence()` surface a usage error rather than silently returning no facade.
The body of `sequence` (transducers.ts:478-487) contains no `throw`; with
neither probe succeeding it falls through every `return` and the call
evaluates to `undefined` (`none` here) — it silently returns no facade. -/
theorem c8_counterexample :
    sequence (.val (⟨none, none⟩ : JsSource ℤ)) = none :=
  rfl

/-- C8 amended: for every input exposing neither iteration capability,
`sequence()` returns `undefined` (no facade) without raising anything at the
call; the usage error surfaces only when the caller tries to use the missing
facade. -/
theorem c8_amended :
    ∀ (A : Type) (v : JsSource A), isIterable v = false → isAsyncIterable v = false →
      sequence (.val v) = none := by
  intro A v h1 h2
  simp [sequence, sequenceVal, h1, h2]

/-- C8 amended witness: the capability-free value returns `undefined`. -/
theorem c8_amended_witness :
    isIterable (⟨none, none⟩ : JsSource ℤ) = false
    ∧ isAsyncIterable (⟨none, none⟩ : JsSource ℤ) = false
    ∧ sequence (.val (⟨none, none⟩ : JsSource ℤ)) = none :=
  ⟨by decide, by decide, c8_amended ℤ ⟨none, none⟩ (by decide) (by decide)⟩

/-- C10 witness: `take(-1)` over `[1, 2, 3]` yields all of `[1, 2, 3]`. -/
theorem c10_witness :
    ((-1 : ℤ) < 0)
    ∧ ((Sequence.take ⟨[(1 : ℤ), 2, 3], .identityT⟩ (-1)).toList =
          Sequence.toList ⟨[(1 : ℤ), 2, 3], .identityT⟩
        ∧ takeSync (-1) [(5 : ℤ), 6] = [5, 6]) :=
  ⟨by decide, c10_take_negative ℤ ℤ ⟨[1, 2, 3], .identityT⟩ (-1) [5, 6] (by decide)⟩

end Transducers
